import Mathlib

/-!
A shallow embedding of `dataclassframe_.py` (the `DataClassFrame` typed
columnar record store) and proofs of the specification's claims about it.

Modelling floor: the pandas/NumPy table engine is external to the repository
(the spec treats it as a collaborator), so its operations used by the source
(`pd.Series` dtype construction, `DataFrame.append`, `set_index`,
`reset_index`, `iloc`/`loc` get and set, `head`, column get/set) are embedded
as pure Lean functions over an explicit table value.  Cells are plain Python
values or NumPy boxed scalars (`np.generic`); Python `==` on such values
unboxes the scalar, which is what `pyEq` does.  Python exceptions are an
`Except` error channel; every raise in the source happens before any
mutation, so an error result leaves every store value unchanged.
-/

namespace DCF

/-- A plain Python scalar value as stored in a record field or a table cell.
`bnone` stands for Python `None` / pandas `NaN` fill. -/
inductive BasicValue : Type where
  | bint : Int → BasicValue
  | bstr : String → BasicValue
  | bbool : Bool → BasicValue
  | bnone : BasicValue
deriving DecidableEq, Repr

/-- A cell value: either a plain Python object or a NumPy boxed scalar
(`np.generic`).  NumPy scalars wrap exactly one basic value; `item()`
unwraps it. -/
inductive Value : Type where
  | plain : BasicValue → Value
  | npscalar : BasicValue → Value
deriving DecidableEq, Repr

/-- `to_basic_type` (source lines 10-14): `obj.item()` when `obj` is an
`np.generic`, the object itself otherwise. -/
def to_basic_type : Value → Value
  | .npscalar b => .plain b
  | v => v

/-- Python `==` on cell values: NumPy scalars compare equal to the plain
value they box. -/
def pyEq (a b : Value) : Bool := to_basic_type a == to_basic_type b

/-- The record type descriptor: the dataclass name and its ordered
`(field name, declared type)` pairs (`dataclasses.fields`). -/
structure RecordClass : Type where
  name : String
  fields : List (String × String)
deriving DecidableEq, Repr

/-- A record instance: its runtime class name and its `__dict__`
(field name to value, in field order for genuine dataclass instances). -/
structure Record : Type where
  cls : String
  values : List (String × Value)
deriving DecidableEq, Repr

/-- `isinstance(dc, record_class)`. -/
def isinstance (r : Record) (rc : RecordClass) : Bool := r.cls == rc.name

/-- A genuine instance of the dataclass: right class, and `__dict__` keys
are exactly the declared fields in declaration order. -/
def Record.wf (r : Record) (rc : RecordClass) : Prop :=
  r.cls = rc.name ∧ r.values.map Prod.fst = rc.fields.map Prod.fst

instance (r : Record) (rc : RecordClass) : Decidable (r.wf rc) := by
  unfold Record.wf; infer_instance

/-- Python dataclass `__eq__`: same class and fieldwise `==` on values. -/
def recordPyEq (r s : Record) : Bool :=
  r.cls == s.cls && r.values.length == s.values.length &&
    (r.values.zip s.values).all (fun p => p.1.1 == p.2.1 && pyEq p.1.2 p.2.2)

/-- One table row: its label (the tuple of index-field values, or the single
range-index position) and its cells aligned to the table's columns. -/
structure Row : Type where
  label : List Value
  cells : List Value
deriving DecidableEq, Repr

/-- The pandas DataFrame as the source uses it: named typed columns and a
list of labelled rows. -/
structure DataFrame : Type where
  cols : List String
  dtypes : List String
  rows : List Row
deriving DecidableEq, Repr

/-- Read the cell of column `name` from a row (`bnone` when absent, as
pandas fills NaN on alignment). -/
def getCell (cols : List String) (r : Row) (name : String) : Value :=
  ((cols.zip r.cells).lookup name).getD (.plain .bnone)

/-- A whole column, read top to bottom. -/
def DataFrame.getCol (df : DataFrame) (name : String) : List Value :=
  df.rows.map (fun r => getCell df.cols r name)

/-- The Python exceptions the source can raise, with the data their
messages carry. -/
inductive PyError : Type where
  | emptyInput
  | typeMismatch (expected : String) (found : Record) (pos : Nat)
  | duplicateKey
  | ambiguousKey (msg : String)
  | indexOutOfRange
  | keyMismatch (key recVal : Value)
  | typeError
  | keyError
  | lengthMismatch
deriving DecidableEq, Repr

/-- The table engine's dtype recognizer (`pandas_dtype`): maps a declared
field type to a native column storage dtype when it can, `none` (which the
engine surfaces as a `TypeError`) otherwise. -/
def pandas_dtype : String → Option String
  | "int" => some "int64"
  | "int64" => some "int64"
  | "float" => some "float64"
  | "float64" => some "float64"
  | "bool" => some "bool"
  | "str" => some "object"
  | "object" => some "object"
  | _ => none

/-- `pd.Series(name=..., dtype=t)`: yields the column dtype, raising
`TypeError` when `t` is not recognized. -/
def mkSeries (t : String) : Except PyError String :=
  match pandas_dtype t with
  | some d => .ok d
  | none => .error .typeError

/-- The column-building loop of `_dataclass_to_empty_dataframe`
(source lines 172-177): per field try the declared dtype, and on
`TypeError` fall back to `'object'`; any other error would propagate. -/
def addCols : List (String × String) → Except PyError (List String × List String)
  | [] => .ok ([], [])
  | (nm, ty) :: rest =>
      match (match mkSeries ty with
             | .ok d => .ok d
             | .error .typeError => .ok "object"
             | .error e => .error e : Except PyError String) with
      | .error e => .error e
      | .ok d =>
          match addCols rest with
          | .error e => .error e
          | .ok p => .ok (nm :: p.1, d :: p.2)

/-- `DataClassFrame._dataclass_to_empty_dataframe` (source lines 165-178). -/
def dataclass_to_empty_dataframe (rc : RecordClass) : Except PyError DataFrame :=
  match addCols rc.fields with
  | .error e => .error e
  | .ok p => .ok ⟨p.1, p.2, []⟩

/-- Align a record dict to the table's columns, one value per column in
column order (`bnone` fills a missing key, as pandas does). -/
def alignCells (cols : List String) (d : List (String × Value)) : List Value :=
  cols.map (fun c => (d.lookup c).getD (.plain .bnone))

/-- Rows built by `df.append(list_of_dicts)` on an empty frame: fresh
0-based labels and cells aligned to the columns. -/
def buildRows (cols : List String) : Nat → List (List (String × Value)) → List Row
  | _, [] => []
  | k, d :: ds => ⟨[.plain (.bint k)], alignCells cols d⟩ :: buildRows cols (k + 1) ds

/-- `df.append(df_data)` (source line 117). -/
def DataFrame.appendDicts (df : DataFrame) (ds : List (List (String × Value))) :
    DataFrame :=
  { df with rows := df.rows ++ buildRows df.cols 0 ds }

/-- Fresh contiguous 0-based labels. -/
def relabel : Nat → List Row → List Row
  | _, [] => []
  | k, r :: rs => ⟨[.plain (.bint k)], r.cells⟩ :: relabel (k + 1) rs

/-- `df.reset_index(drop=True)` (source line 161). -/
def DataFrame.resetIndex (df : DataFrame) : DataFrame :=
  { df with rows := relabel 0 df.rows }

/-- `df.set_index(names, drop=False, verify_integrity=True)` (source line
159): relabel every row by its index-field values, keep the columns, and
raise on duplicate label combinations. -/
def DataFrame.setIndexCols (df : DataFrame) (names : List String) :
    Except PyError DataFrame :=
  if names.all (fun nm => df.cols.contains nm) then
    if (df.rows.map (fun r => names.map (fun nm => getCell df.cols r nm))).Nodup then
      .ok { df with
            rows := df.rows.map
              (fun r => ⟨names.map (fun nm => getCell df.cols r nm), r.cells⟩) }
    else .error .duplicateKey
  else .error .keyError

/-- The `index` constructor argument: `None`, a bare field name, or a list
of field names.  The source stores it verbatim in `self.index`. -/
inductive IndexArg : Type where
  | noIdx : IndexArg
  | single : String → IndexArg
  | multi : List String → IndexArg
deriving DecidableEq, Repr

/-- `_ColumnsWrapper` (source lines 65-88): it memoizes `set(dcf.df.columns)`
once and keeps a reference to the owning frame; the reference is embedded as
the owning frame's table value at wrapper-construction time. -/
structure ColsWrapper : Type where
  colset : List String
  wrapped : DataFrame
deriving DecidableEq, Repr

/-- The store: record class, table, the `index` argument as passed, and the
column-accessor wrapper built by `_from_dataframe`. -/
structure DataClassFrame : Type where
  record_class : RecordClass
  df : DataFrame
  index : IndexArg
  cols_ : ColsWrapper
deriving DecidableEq, Repr

/-- `DataClassFrame._from_dataframe` (source lines 144-163): adopt the
table, apply the index (set row labels, or reset to contiguous positions),
then build the column wrapper. -/
def from_dataframe (rc : RecordClass) (data : DataFrame) (index : IndexArg) :
    Except PyError DataClassFrame :=
  match (match index with
         | .noIdx => .ok data.resetIndex
         | .single s => data.setIndexCols [s]
         | .multi l => data.setIndexCols l : Except PyError DataFrame) with
  | .error e => .error e
  | .ok df => .ok ⟨rc, df, index, ⟨df.cols, df⟩⟩

/-- The validating list comprehension of `__init__` (source lines 107-113):
`validate_and_to_dict(i, dc)` for each record in order, raising
`ValueError` (a `TypeMismatch` naming the expected class, the offending
value and its position) at the first non-instance. -/
def validateAll (rc : RecordClass) : Nat → List Record →
    Except PyError (List (List (String × Value)))
  | _, [] => .ok []
  | i, dc :: rest =>
      if isinstance dc rc then
        match validateAll rc (i + 1) rest with
        | .error e => .error e
        | .ok ds => .ok (dc.values :: ds)
      else .error (.typeMismatch rc.name dc i)

/-- `DataClassFrame.__init__` (source lines 92-119): validate and convert
every record, require at least one, build the typed empty table, append the
rows, and finish through `_from_dataframe`. -/
def DataClassFrame.init (rc : RecordClass) (data : List Record)
    (index : IndexArg) : Except PyError DataClassFrame :=
  match validateAll rc 0 data with
  | .error e => .error e
  | .ok df_data =>
      if df_data.length < 1 then .error .emptyInput
      else
        match dataclass_to_empty_dataframe rc with
        | .error e => .error e
        | .ok df0 => from_dataframe rc (df0.appendDicts df_data) index

/-- Python sequence-position resolution: a negative position counts from the
end; out of `[-n, n-1]` is an `IndexError`. -/
def pyIdx (n : Nat) (i : Int) : Option Nat :=
  let j : Int := if i < 0 then i + n else i
  if 0 ≤ j ∧ j < n then some j.toNat else none

/-- `df.iloc[i]` for a scalar integer `i`: the single row at that position. -/
def DataFrame.ilocGet (df : DataFrame) (i : Int) : Except PyError Row :=
  match pyIdx df.rows.length i with
  | some j => .ok (df.rows.getD j ⟨[], []⟩)
  | none => .error .indexOutOfRange

/-- `df.iloc[i] = row` for a scalar integer `i` and a Series row: replace
the cells at that position, aligning the Series on the column names; the
row keeps its label. -/
def DataFrame.ilocSet (df : DataFrame) (i : Int) (d : List (String × Value)) :
    Except PyError DataFrame :=
  match pyIdx df.rows.length i with
  | some j =>
      let old := df.rows.getD j ⟨[], []⟩
      .ok { df with rows := df.rows.set j ⟨old.label, alignCells df.cols d⟩ }
  | none => .error .indexOutOfRange

/-- `record_class(**row)` (source lines 30, 52): dataclass construction from
keyword arguments; raises `TypeError` unless the keys are exactly the
declared fields. -/
def mkRecord (rc : RecordClass) (d : List (String × Value)) :
    Except PyError Record :=
  if d.map Prod.fst = rc.fields.map Prod.fst then .ok ⟨rc.name, d⟩
  else .error .typeError

/-- `_IAtIndexer.__getitem__` (source lines 21-31).  For a scalar integer
key `df.iloc[key]` is always a single row, so the branch handling a
DataFrame result (source lines 24-27) is unreachable here.  Each cell is
passed through `to_basic_type` and the record is rebuilt. -/
def iat_get (dcf : DataClassFrame) (i : Int) : Except PyError Record :=
  match dcf.df.ilocGet i with
  | .error e => .error e
  | .ok row => mkRecord dcf.record_class (dcf.df.cols.zip (row.cells.map to_basic_type))

/-- `_IAtIndexer.__setitem__` (source lines 33-35): write `value.__dict__`
at the position; no instance check of any kind.  The wrapper snapshot is
kept in step with the frame's own table, matching a store that wraps
itself (every store produced by construction). -/
def iat_set (dcf : DataClassFrame) (i : Int) (r : Record) :
    Except PyError DataClassFrame :=
  match dcf.df.ilocSet i r.values with
  | .error e => .error e
  | .ok df' => .ok { dcf with df := df', cols_ := ⟨dcf.cols_.colset, df'⟩ }

/-- `df.loc[key] = row` for a scalar label `key`: replace the cells of the
row(s) with that label, or append a new labelled row (enlargement) when the
label does not exist. -/
def DataFrame.locSet (df : DataFrame) (key : Value) (d : List (String × Value)) :
    DataFrame :=
  if df.rows.any (fun r => r.label == [key]) then
    { df with rows := (df.rows.map
        (fun r => if r.label == [key] then ⟨r.label, alignCells df.cols d⟩ else r)) }
  else
    { df with rows := df.rows ++ [⟨[key], alignCells df.cols d⟩] }

/-- `_AtIndexer.__setitem__` (source lines 55-62).  It evaluates
`value.__dict__[self.dcf.index]`: with `index=None` the lookup raises
`KeyError`; with a list index (composite or singleton list) the dict
subscript raises `TypeError` (lists are unhashable) before anything else
runs; with a bare string index it reads the record's own index-field value,
raises `ValueError` (the KeyMismatch) when `key != value`, and otherwise
writes the row at the label. -/
def at_set (dcf : DataClassFrame) (key : Value) (r : Record) :
    Except PyError DataClassFrame :=
  match dcf.index with
  | .noIdx => .error .keyError
  | .multi _ => .error .typeError
  | .single s =>
      match r.values.lookup s with
      | none => .error .keyError
      | some v =>
          if pyEq key v then
            let df' := dcf.df.locSet key r.values
            .ok { dcf with df := df', cols_ := ⟨dcf.cols_.colset, df'⟩ }
          else .error (.keyMismatch key v)

/-- `_ColumnsWrapper.__getattribute__` (source lines 71-78): a name in the
memoized column set reads the wrapped frame's live column; any other name
falls through to ordinary attribute lookup (`none` here). -/
def colGet (dcf : DataClassFrame) (name : String) : Option (List Value) :=
  if dcf.cols_.colset.contains name then some (dcf.cols_.wrapped.getCol name)
  else none

/-- `df[name] = values`: whole-column replacement; pandas raises on a
length mismatch and adds the column when the name is new. -/
def DataFrame.setCol (df : DataFrame) (name : String) (vals : List Value) :
    Except PyError DataFrame :=
  if vals.length = df.rows.length then
    .ok { df with rows := ((df.rows.zip vals).map
      (fun p => ⟨p.1.label,
        (df.cols.zip p.1.cells).map (fun q => if q.1 == name then p.2 else q.2)⟩)) }
  else .error .lengthMismatch

/-- `_ColumnsWrapper.__setattr__` (source lines 80-88), for a store wrapping
itself: a name in the column set replaces that column of the table; any
other name becomes a plain attribute of the wrapper object, leaving the
table untouched. -/
def col_set (dcf : DataClassFrame) (name : String) (vals : List Value) :
    Except PyError DataClassFrame :=
  if dcf.cols_.colset.contains name then
    match dcf.df.setCol name vals with
    | .error e => .error e
    | .ok df' => .ok { dcf with df := df', cols_ := ⟨dcf.cols_.colset, df'⟩ }
  else .ok dcf

/-- `DataClassFrame.head` (source lines 254-267): a shallow copy (sharing
`record_class`, `index` and — crucially — the `_cols` wrapper, which keeps
referencing the parent frame) whose own table is replaced by the first `n`
rows. -/
def DataClassFrame.head (dcf : DataClassFrame) (n : Nat) : DataClassFrame :=
  { dcf with df := { dcf.df with rows := dcf.df.rows.take n } }

/-- The mutating operations a store is subjected to after construction.
A raised exception leaves the store unchanged (every raise in the source
precedes the mutation). -/
inductive Op : Type where
  | opIatSet : Int → Record → Op
  | opAtSet : Value → Record → Op
  | opColSet : String → List Value → Op
deriving Repr

/-- The store after a possibly-raising operation: the new value on success,
the untouched old one when the exception propagated. -/
def orElseKeep (x : Except PyError DataClassFrame) (dcf : DataClassFrame) :
    DataClassFrame :=
  match x with
  | .ok d => d
  | .error _ => dcf

/-- Run one operation; on an exception the store value is unchanged. -/
def applyOp (dcf : DataClassFrame) : Op → DataClassFrame
  | .opIatSet i r => orElseKeep (iat_set dcf i r) dcf
  | .opAtSet k r => orElseKeep (at_set dcf k r) dcf
  | .opColSet nm vals => orElseKeep (col_set dcf nm vals) dcf

/-- Is an `Except` a success? -/
def exOk {α : Type} : Except PyError α → Bool
  | .ok _ => true
  | .error _ => false

/-- Is an `Except` a KeyMismatch failure? -/
def isKeyMismatchE {α : Type} : Except PyError α → Bool
  | .error (.keyMismatch _ _) => true
  | _ => false

/-! ### Basic lemmas -/

@[simp]
theorem pyEq_to_basic (v : Value) : pyEq (to_basic_type v) v = true := by
  cases v <;> simp [pyEq, to_basic_type]

@[simp]
theorem bindOk {α β : Type} (a : α) (f : α → Except PyError β) :
    (Except.ok a : Except PyError α) >>= f = f a := rfl

theorem validateAll_ok (rc : RecordClass) (data : List Record)
    (h : ∀ r ∈ data, isinstance r rc = true) :
    ∀ k, validateAll rc k data = .ok (data.map (fun r => r.values)) := by
  induction data with
  | nil => intro k; rfl
  | cons dc rest ih =>
      intro k
      have h1 : isinstance dc rc = true := h dc (List.mem_cons_self dc rest)
      have h2 : ∀ r ∈ rest, isinstance r rc = true :=
        fun r hr => h r (List.mem_cons_of_mem dc hr)
      simp only [validateAll, h1, if_true, ih h2 (k + 1), bindOk, List.map_cons]

theorem addCols_eq (fs : List (String × String)) :
    addCols fs =
      .ok (fs.map Prod.fst, fs.map (fun f => (pandas_dtype f.2).getD "object")) := by
  induction fs with
  | nil => rfl
  | cons f rest ih =>
      obtain ⟨nm, ty⟩ := f
      cases h : pandas_dtype ty <;> simp [addCols, mkSeries, h, ih, bindOk]

theorem dataclass_to_empty_dataframe_eq (rc : RecordClass) :
    dataclass_to_empty_dataframe rc =
      .ok ⟨rc.fields.map Prod.fst,
           rc.fields.map (fun f => (pandas_dtype f.2).getD "object"), []⟩ := by
  simp [dataclass_to_empty_dataframe, addCols_eq]

theorem zip_fst_snd {β : Type} (l : List (String × β)) :
    (l.map Prod.fst).zip (l.map Prod.snd) = l := by
  induction l with
  | nil => rfl
  | cons p rest ih => simp [ih]

theorem lookup_not_mem {β : Type} (l : List (String × β)) (nm : String)
    (h : nm ∉ l.map Prod.fst) : l.lookup nm = none := by
  induction l with
  | nil => rfl
  | cons p rest ih =>
      simp only [List.map_cons, List.mem_cons] at h
      push_neg at h
      have : (nm == p.1) = false := by
        simp [h.1]
      simp [List.lookup, this, ih h.2]

theorem alignCells_self (l : List (String × Value))
    (hnd : (l.map Prod.fst).Nodup) :
    alignCells (l.map Prod.fst) l = l.map Prod.snd := by
  induction l with
  | nil => rfl
  | cons p rest ih =>
      obtain ⟨k, v⟩ := p
      simp only [List.map_cons, List.nodup_cons] at hnd
      obtain ⟨hp, hrest⟩ := hnd
      simp only [alignCells, List.map_cons, List.cons.injEq]
      refine ⟨by simp [List.lookup], ?_⟩
      have step : ∀ c ∈ rest.map Prod.fst,
          ((((k, v) :: rest).lookup c).getD (Value.plain .bnone)) =
            ((rest.lookup c).getD (Value.plain .bnone)) := by
        intro c hc
        have hck : (c == k) = false := by
          simp only [beq_eq_false_iff_ne, ne_eq]
          intro he
          exact hp (he ▸ hc)
        simp [List.lookup, hck]
      calc (rest.map Prod.fst).map
            (fun c => ((((k, v) :: rest).lookup c).getD (Value.plain .bnone)))
          = (rest.map Prod.fst).map
            (fun c => ((rest.lookup c).getD (Value.plain .bnone))) :=
            List.map_congr_left step
        _ = rest.map Prod.snd := ih hrest

theorem alignCells_length (cols : List String) (d : List (String × Value)) :
    (alignCells cols d).length = cols.length := by
  simp [alignCells]

theorem buildRows_length (cols : List String) (ds : List (List (String × Value))) :
    ∀ k, (buildRows cols k ds).length = ds.length := by
  induction ds with
  | nil => intro k; rfl
  | cons d rest ih => intro k; simp [buildRows, ih (k + 1)]

theorem buildRows_getD (cols : List String) (ds : List (List (String × Value)))
    (i : Nat) (hi : i < ds.length) :
    ∀ k, (buildRows cols k ds).getD i ⟨[], []⟩ =
      ⟨[.plain (.bint (k + i))], alignCells cols (ds.getD i [])⟩ := by
  induction ds generalizing i with
  | nil => exact absurd hi (by simp)
  | cons d rest ih =>
      intro k
      cases i with
      | zero => simp [buildRows]
      | succ j =>
          have hj : j < rest.length := by
            simp only [List.length_cons] at hi
            omega
          simp only [buildRows, List.getD_cons_succ]
          rw [show ((k : Int) + ((j + 1 : Nat) : Int)) = ((k + 1 : Nat) : Int) + (j : Int) by push_cast; ring]
          exact ih j hj (k + 1)

theorem relabel_buildRows (cols : List String)
    (ds : List (List (String × Value))) :
    ∀ k, relabel k (buildRows cols k ds) = buildRows cols k ds := by
  induction ds with
  | nil => intro k; rfl
  | cons d rest ih => intro k; simp [buildRows, relabel, ih (k + 1)]

/-- The fully evaluated table produced by record-list construction. -/
def initDF (rc : RecordClass) (data : List Record) : DataFrame :=
  ⟨rc.fields.map Prod.fst,
   rc.fields.map (fun f => (pandas_dtype f.2).getD "object"),
   buildRows (rc.fields.map Prod.fst) 0 (data.map (fun r => r.values))⟩

theorem init_noIdx_eq (rc : RecordClass) (data : List Record)
    (hinst : ∀ r ∈ data, isinstance r rc = true) (hne : data ≠ []) :
    DataClassFrame.init rc data .noIdx =
      .ok ⟨rc, initDF rc data, .noIdx,
           ⟨rc.fields.map Prod.fst, initDF rc data⟩⟩ := by
  have hlen : ¬ ((data.map (fun r => r.values)).length < 1) := by
    cases data with
    | nil => exact absurd rfl hne
    | cons d rest => simp
  simp only [DataClassFrame.init, validateAll_ok rc data hinst 0, bindOk]
  rw [if_neg hlen]
  simp only [dataclass_to_empty_dataframe_eq, bindOk, DataFrame.appendDicts,
    from_dataframe, DataFrame.resetIndex, List.nil_append]
  rw [relabel_buildRows]
  rfl

@[simp]
theorem bindErr {α β : Type} (e : PyError) (f : α → Except PyError β) :
    (Except.error e : Except PyError α) >>= f = .error e := rfl

theorem validateAll_err (rc : RecordClass) (data : List Record) (j : Nat)
    (hj : j < data.length) (hbad : isinstance (data.get ⟨j, hj⟩) rc = false)
    (hfirst : ∀ r ∈ data.take j, isinstance r rc = true) :
    ∀ k, validateAll rc k data =
      .error (.typeMismatch rc.name (data.get ⟨j, hj⟩) (k + j)) := by
  induction data generalizing j with
  | nil => exact absurd hj (by simp)
  | cons dc rest ih =>
      intro k
      cases j with
      | zero =>
          have hb : isinstance dc rc = false := by simpa using hbad
          simp [validateAll, hb]
      | succ j' =>
          have hdc : isinstance dc rc = true := by
            refine hfirst dc ?_
            simp [List.take]
          have hj' : j' < rest.length := by simpa using hj
          have hbad' : isinstance (rest.get ⟨j', hj'⟩) rc = false := by
            simpa using hbad
          have hfirst' : ∀ r ∈ rest.take j', isinstance r rc = true := by
            intro r hr
            refine hfirst r ?_
            simp only [List.take, List.mem_cons]
            exact Or.inr hr
          simp only [validateAll, hdc, if_true]
          rw [ih j' hj' hbad' hfirst' (k + 1)]
          simp only [bindErr, List.get_cons_succ]
          rw [show k + 1 + j' = k + (j' + 1) by omega]

/-! ### Claims -/

/-- **C8.** Record-list construction given zero records always fails with the
`EmptyInput` error (`ValueError: Data must contain at least one record`),
for every record type and every index argument. -/
theorem claim_c8 (rc : RecordClass) (idx : IndexArg) :
    DataClassFrame.init rc [] idx = .error .emptyInput := rfl

/-- **C3.** Deriving the empty table from a record type descriptor is total:
it never propagates an error, produces the columns in descriptor order with
zero rows, and each column's dtype is the native mapping of the declared
type when one exists and the untyped `'object'` dtype otherwise (the
`TypeError` from an unmappable dtype is caught and falls back). -/
theorem claim_c3 (rc : RecordClass) :
    dataclass_to_empty_dataframe rc =
      .ok ⟨rc.fields.map Prod.fst,
           rc.fields.map (fun f => (pandas_dtype f.2).getD "object"), []⟩ :=
  dataclass_to_empty_dataframe_eq rc

/-- **C7.** If position `j` holds the first record that is not an instance
of the declared record type, construction fails with a `TypeMismatch` error
naming the expected type, the offending record itself, and its position. -/
theorem claim_c7 (rc : RecordClass) (data : List Record) (idx : IndexArg)
    (j : Nat) (hj : j < data.length)
    (hbad : isinstance (data.get ⟨j, hj⟩) rc = false)
    (hfirst : ∀ r ∈ data.take j, isinstance r rc = true) :
    DataClassFrame.init rc data idx =
      .error (.typeMismatch rc.name (data.get ⟨j, hj⟩) j) := by
  simp only [DataClassFrame.init, validateAll_err rc data j hj hbad hfirst 0,
    bindErr, Nat.zero_add]

/-! ### Column-set preservation -/

theorem ilocSet_cols (df : DataFrame) (i : Int) (d : List (String × Value))
    (df' : DataFrame) (h : df.ilocSet i d = .ok df') : df'.cols = df.cols := by
  unfold DataFrame.ilocSet at h
  cases hp : pyIdx df.rows.length i with
  | none => rw [hp] at h; cases h
  | some j =>
      rw [hp] at h
      simp only [Except.ok.injEq] at h
      rw [← h]

theorem locSet_cols (df : DataFrame) (key : Value) (d : List (String × Value)) :
    (df.locSet key d).cols = df.cols := by
  unfold DataFrame.locSet
  split <;> rfl

theorem setCol_cols (df : DataFrame) (name : String) (vals : List Value)
    (df' : DataFrame) (h : df.setCol name vals = .ok df') : df'.cols = df.cols := by
  unfold DataFrame.setCol at h
  split at h
  · simp only [Except.ok.injEq] at h
    rw [← h]
  · cases h

theorem iat_set_ok_cols (dcf : DataClassFrame) (i : Int) (r : Record)
    (d : DataClassFrame) (h : iat_set dcf i r = .ok d) : d.df.cols = dcf.df.cols := by
  unfold iat_set at h
  split at h
  · cases h
  · rename_i df' hp
    simp only [Except.ok.injEq] at h
    rw [← h]
    exact ilocSet_cols dcf.df i r.values df' hp

theorem at_set_ok_cols (dcf : DataClassFrame) (k : Value) (r : Record)
    (d : DataClassFrame) (h : at_set dcf k r = .ok d) : d.df.cols = dcf.df.cols := by
  unfold at_set at h
  split at h
  · cases h
  · cases h
  · split at h
    · cases h
    · split at h
      · simp only [Except.ok.injEq] at h
        rw [← h]
        exact locSet_cols dcf.df k r.values
      · cases h

theorem col_set_ok_cols (dcf : DataClassFrame) (nm : String) (vals : List Value)
    (d : DataClassFrame) (h : col_set dcf nm vals = .ok d) : d.df.cols = dcf.df.cols := by
  unfold col_set at h
  split at h
  · split at h
    · cases h
    · rename_i df' hs
      simp only [Except.ok.injEq] at h
      rw [← h]
      exact setCol_cols dcf.df nm vals df' hs
  · simp only [Except.ok.injEq] at h
    rw [← h]

theorem orElseKeep_cols (x : Except PyError DataClassFrame) (dcf : DataClassFrame)
    (hok : ∀ d, x = .ok d → d.df.cols = dcf.df.cols) :
    (orElseKeep x dcf).df.cols = dcf.df.cols := by
  cases x with
  | ok d => exact hok d rfl
  | error e => rfl

theorem applyOp_cols (dcf : DataClassFrame) (op : Op) :
    (applyOp dcf op).df.cols = dcf.df.cols := by
  cases op with
  | opIatSet i r =>
      exact orElseKeep_cols (iat_set dcf i r) dcf (fun d h => iat_set_ok_cols dcf i r d h)
  | opAtSet k r =>
      exact orElseKeep_cols (at_set dcf k r) dcf (fun d h => at_set_ok_cols dcf k r d h)
  | opColSet nm vals =>
      exact orElseKeep_cols (col_set dcf nm vals) dcf (fun d h => col_set_ok_cols dcf nm vals d h)

theorem foldl_applyOp_cols (ops : List Op) (dcf : DataClassFrame) :
    (ops.foldl applyOp dcf).df.cols = dcf.df.cols := by
  induction ops generalizing dcf with
  | nil => rfl
  | cons op rest ih =>
      simp only [List.foldl_cons]
      rw [ih (applyOp dcf op), applyOp_cols]

theorem setIndexCols_ok_cols (df : DataFrame) (names : List String)
    (df' : DataFrame) (h : df.setIndexCols names = .ok df') : df'.cols = df.cols := by
  unfold DataFrame.setIndexCols at h
  split at h
  · split at h
    · simp only [Except.ok.injEq] at h
      rw [← h]
    · cases h
  · cases h

theorem from_dataframe_ok_cols (rc : RecordClass) (data : DataFrame)
    (idx : IndexArg) (dcf : DataClassFrame)
    (h : from_dataframe rc data idx = .ok dcf) : dcf.df.cols = data.cols := by
  unfold from_dataframe at h
  split at h
  · cases h
  · rename_i df heq
    simp only [Except.ok.injEq] at h
    rw [← h]
    split at heq
    · simp only [Except.ok.injEq] at heq
      rw [← heq]
      rfl
    · rename_i s
      exact setIndexCols_ok_cols data [s] df heq
    · rename_i l
      exact setIndexCols_ok_cols data l df heq

theorem init_ok_cols (rc : RecordClass) (data : List Record) (idx : IndexArg)
    (dcf : DataClassFrame) (h : DataClassFrame.init rc data idx = .ok dcf) :
    dcf.df.cols = rc.fields.map Prod.fst := by
  unfold DataClassFrame.init at h
  split at h
  · cases h
  · split at h
    · cases h
    · split at h
      · cases h
      · rename_i df0 hdf0
        rw [from_dataframe_ok_cols rc _ idx dcf h]
        rw [dataclass_to_empty_dataframe_eq] at hdf0
        simp only [Except.ok.injEq] at hdf0
        rw [← hdf0]
        rfl

/-- **C5.** Whatever list of positional writes, key writes and whole-column
replacements is applied to a store after record-list construction (failed
ones leaving it unchanged), the table's column list stays exactly the
descriptor's field names, in descriptor order. -/
theorem claim_c5 (rc : RecordClass) (data : List Record) (idx : IndexArg)
    (dcf : DataClassFrame) (h : DataClassFrame.init rc data idx = .ok dcf)
    (ops : List Op) :
    (ops.foldl applyOp dcf).df.cols = rc.fields.map Prod.fst := by
  rw [foldl_applyOp_cols, init_ok_cols rc data idx dcf h]

/-! ### Positional resolution lemmas -/

theorem pyIdx_coe (n i : Nat) (h : i < n) : pyIdx n (i : Int) = some i := by
  unfold pyIdx
  have h0 : ¬ ((i : Int) < 0) := by omega
  have h1 : (0 : Int) ≤ (i : Int) ∧ (i : Int) < (n : Int) := by omega
  rw [if_neg h0, if_pos h1, Int.toNat_natCast]

theorem ilocGet_coe (df : DataFrame) (i : Nat) (hi : i < df.rows.length) :
    df.ilocGet (i : Int) = .ok (df.rows.getD i ⟨[], []⟩) := by
  unfold DataFrame.ilocGet
  rw [pyIdx_coe df.rows.length i hi]

theorem iat_get_coe (dcf : DataClassFrame) (i : Nat) (hi : i < dcf.df.rows.length) :
    iat_get dcf (i : Int) = mkRecord dcf.record_class
      (dcf.df.cols.zip ((dcf.df.rows.getD i ⟨[], []⟩).cells.map to_basic_type)) := by
  unfold iat_get
  rw [ilocGet_coe dcf.df i hi]

theorem ilocSet_ok_length (df : DataFrame) (i : Int) (d : List (String × Value))
    (df' : DataFrame) (h : df.ilocSet i d = .ok df') :
    df'.rows.length = df.rows.length := by
  unfold DataFrame.ilocSet at h
  cases hp : pyIdx df.rows.length i with
  | none => rw [hp] at h; cases h
  | some j =>
      rw [hp] at h
      simp only [Except.ok.injEq] at h
      rw [← h]
      exact List.length_set df.rows j _

/-- **C6.** `head n` on a store with at least `n` rows yields a store with
exactly `n` rows whose positional reads agree with the parent's first `n`
positions; and a positional write through any store (the head view
included) never changes that store's row count — so in particular it cannot
change the parent's. -/
theorem claim_c6 (dcf : DataClassFrame) (n : Nat) (h : n ≤ dcf.df.rows.length) :
    (dcf.head n).df.rows.length = n
    ∧ (∀ i : Nat, i < n → iat_get (dcf.head n) (i : Int) = iat_get dcf (i : Int))
    ∧ (∀ (g : DataClassFrame) (i : Int) (r : Record) (g' : DataClassFrame),
        iat_set g i r = .ok g' → g'.df.rows.length = g.df.rows.length) := by
  refine ⟨?_, ?_, ?_⟩
  · simp only [DataClassFrame.head, List.length_take]
    omega
  · intro i hi
    have h2 : i < dcf.df.rows.length := lt_of_lt_of_le hi h
    have h1 : i < (dcf.head n).df.rows.length := by
      simp only [DataClassFrame.head, List.length_take]
      omega
    have hrow : (dcf.df.rows.take n).getD i ⟨[], []⟩ = dcf.df.rows.getD i ⟨[], []⟩ := by
      have h1' : i < (dcf.df.rows.take n).length := by
        simpa [DataClassFrame.head] using h1
      rw [List.getD_eq_getElem _ _ h1', List.getD_eq_getElem _ _ h2]
      exact List.getElem_take dcf.df.rows
    unfold iat_get
    rw [ilocGet_coe ((dcf.head n).df) i h1, ilocGet_coe dcf.df i h2]
    rw [show (dcf.head n).df.rows = dcf.df.rows.take n from rfl, hrow]
    rfl
  · intro g i r g' hset
    unfold iat_set at hset
    split at hset
    · cases hset
    · rename_i df' hp
      simp only [Except.ok.injEq] at hset
      rw [← hset]
      exact ilocSet_ok_length g.df i r.values df' hp

/-- **C10.** Indexer writes perform no record-type validation: an in-range
positional write succeeds for any value exposing the record fields,
positional and key writes are entirely independent of the value's runtime
class, and neither write can ever fail with a `TypeMismatch` error —
construction is the only operation that validates record types. -/
theorem claim_c10 (dcf : DataClassFrame) (i : Int) (r : Record)
    (h : pyIdx dcf.df.rows.length i ≠ none) :
    exOk (iat_set dcf i r) = true
    ∧ (∀ c : String, iat_set dcf i ⟨c, r.values⟩ = iat_set dcf i r)
    ∧ (∀ (k : Value) (c : String), at_set dcf k ⟨c, r.values⟩ = at_set dcf k r)
    ∧ (∀ (i' : Int) (s : String) (r' : Record) (p : Nat),
        iat_set dcf i' r ≠ .error (.typeMismatch s r' p))
    ∧ (∀ (k : Value) (s : String) (r' : Record) (p : Nat),
        at_set dcf k r ≠ .error (.typeMismatch s r' p)) := by
  refine ⟨?_, fun c => rfl, fun k c => rfl, ?_, ?_⟩
  · cases hp : pyIdx dcf.df.rows.length i with
    | none => exact absurd hp h
    | some j =>
        unfold iat_set DataFrame.ilocSet
        rw [hp]
        rfl
  · intro i' s r' p
    unfold iat_set DataFrame.ilocSet
    cases hp : pyIdx dcf.df.rows.length i' with
    | none => simp
    | some j => simp
  · intro k s r' p
    unfold at_set
    split
    · simp
    · simp
    · split
      · simp
      · split
        · simp
        · simp

/-! ### Round-trip lemmas -/

theorem zip_map_basic (l : List (String × Value)) :
    (l.map Prod.fst).zip ((l.map Prod.snd).map to_basic_type)
      = l.map (fun p => (p.1, to_basic_type p.2)) := by
  induction l with
  | nil => rfl
  | cons p rest ih =>
      simp only [List.map_cons, List.zip_cons_cons, List.cons.injEq]
      exact ⟨trivial, ih⟩

theorem map_fst_basic (l : List (String × Value)) :
    (l.map (fun p => (p.1, to_basic_type p.2))).map Prod.fst = l.map Prod.fst := by
  induction l with
  | nil => rfl
  | cons p rest ih => simp [ih]

theorem zipAll_basic (l : List (String × Value)) :
    ((l.map (fun p => (p.1, to_basic_type p.2))).zip l).all
      (fun p => p.1.1 == p.2.1 && pyEq p.1.2 p.2.2) = true := by
  induction l with
  | nil => rfl
  | cons p rest ih =>
      simp only [List.map_cons, List.zip_cons_cons, List.all_cons, ih, Bool.and_true]
      simp [pyEq_to_basic]

theorem recordPyEq_basic (c : String) (l : List (String × Value)) :
    recordPyEq ⟨c, l.map (fun p => (p.1, to_basic_type p.2))⟩ ⟨c, l⟩ = true := by
  unfold recordPyEq
  rw [zipAll_basic]
  simp

/-- **C1.** Building a store from a non-empty list of genuine instances of
the record class (whose field names are the descriptor's, which are
distinct) and reading every position back through the positional indexer
succeeds and reproduces each input record, field for field under Python
equality, in the original order. -/
theorem claim_c1 (rc : RecordClass) (data : List Record) (dcf : DataClassFrame)
    (hw : ∀ r ∈ data, Record.wf r rc)
    (hnd : (rc.fields.map Prod.fst).Nodup)
    (hd : DataClassFrame.init rc data .noIdx = .ok dcf)
    (i : Nat) (hi : i < data.length) :
    (iat_get dcf (i : Int)).map (fun rb => recordPyEq rb (data.get ⟨i, hi⟩)) =
      .ok true := by
  have hinst : ∀ r ∈ data, isinstance r rc = true := by
    intro r hr
    simp [isinstance, (hw r hr).1]
  have hne : data ≠ [] := by
    intro he
    rw [he] at hi
    simp at hi
  rw [init_noIdx_eq rc data hinst hne] at hd
  simp only [Except.ok.injEq] at hd
  subst hd
  have hwf := hw (data.get ⟨i, hi⟩) (data.get_mem i hi)
  obtain ⟨hcls, hkeys⟩ := hwf
  have hlen : (initDF rc data).rows.length = data.length := by
    simp [initDF, buildRows_length]
  have hrow : (initDF rc data).rows.getD i ⟨[], []⟩ =
      ⟨[.plain (.bint ((0 : Nat) + (i : Nat)))],
        alignCells (rc.fields.map Prod.fst)
          ((data.map (fun r => r.values)).getD i [])⟩ := by
    exact buildRows_getD (rc.fields.map Prod.fst) (data.map (fun r => r.values))
      i (by simpa using hi) 0
  have hvals : (data.map (fun r => r.values)).getD i [] =
      (data.get ⟨i, hi⟩).values := by
    rw [List.getD_eq_getElem _ _ (by simpa using hi), List.getElem_map]
    rfl
  have hnd' : ((data.get ⟨i, hi⟩).values.map Prod.fst).Nodup := by
    rw [hkeys]
    exact hnd
  have halign : alignCells (rc.fields.map Prod.fst) (data.get ⟨i, hi⟩).values =
      (data.get ⟨i, hi⟩).values.map Prod.snd := by
    rw [← hkeys]
    exact alignCells_self (data.get ⟨i, hi⟩).values hnd'
  have hzip : (rc.fields.map Prod.fst).zip
        (((data.get ⟨i, hi⟩).values.map Prod.snd).map to_basic_type)
      = (data.get ⟨i, hi⟩).values.map (fun p => (p.1, to_basic_type p.2)) := by
    rw [← hkeys]
    exact zip_map_basic (data.get ⟨i, hi⟩).values
  rw [iat_get_coe _ i (by
    show i < (initDF rc data).rows.length
    rw [hlen]
    exact hi)]
  simp only []
  rw [hrow, hvals]
  rw [show (initDF rc data).cols = rc.fields.map Prod.fst from rfl]
  rw [halign, hzip]
  unfold mkRecord
  rw [if_pos (by rw [map_fst_basic, hkeys])]
  have : recordPyEq ⟨rc.name,
      (data.get ⟨i, hi⟩).values.map (fun p => (p.1, to_basic_type p.2))⟩
      (data.get ⟨i, hi⟩) = true := by
    rw [show (data.get ⟨i, hi⟩) = ⟨rc.name, (data.get ⟨i, hi⟩).values⟩ from by
      rw [← hcls]]
    exact recordPyEq_basic rc.name (data.get ⟨i, hi⟩).values
  simp only [Except.map]
  rw [this]

/-- **C9.** The column accessor of `head(n)` is the shallow-copied parent's
wrapper and still resolves against the parent's full table: for a store of
`m` rows built from records and `n < m`, the head view has `n` rows but
reading a declared field's column through it yields the parent's column of
length `m`, not `n`. -/
theorem claim_c9 (rc : RecordClass) (data : List Record) (n : Nat) (f : String)
    (dcf : DataClassFrame)
    (hinst : ∀ r ∈ data, isinstance r rc = true)
    (hne : data ≠ [])
    (hn : n < data.length)
    (hf : f ∈ rc.fields.map Prod.fst)
    (hd : DataClassFrame.init rc data .noIdx = .ok dcf) :
    (dcf.head n).df.rows.length = n
    ∧ colGet (dcf.head n) f = some (dcf.df.getCol f)
    ∧ (dcf.df.getCol f).length = data.length := by
  rw [init_noIdx_eq rc data hinst hne] at hd
  simp only [Except.ok.injEq] at hd
  subst hd
  have hlen : (initDF rc data).rows.length = data.length := by
    simp [initDF, buildRows_length]
  refine ⟨?_, ?_, ?_⟩
  · show ((initDF rc data).rows.take n).length = n
    rw [List.length_take, hlen]
    omega
  · have hc : ((rc.fields.map Prod.fst).contains f) = true := List.elem_iff.mpr hf
    unfold colGet DataClassFrame.head
    simp only []
    rw [if_pos hc]
  · show ((initDF rc data).rows.map _).length = data.length
    rw [List.length_map, hlen]

/-! ### Index-promotion lemmas -/

theorem from_dataframe_multi (rc : RecordClass) (df : DataFrame)
    (idx : List String) :
    from_dataframe rc df (.multi idx) =
      match df.setIndexCols idx with
      | .error e => .error e
      | .ok d => .ok ⟨rc, d, .multi idx, ⟨d.cols, d⟩⟩ := rfl

theorem getCell_align (l : List (String × Value)) (lab : List Value)
    (nm : String) (hnd : (l.map Prod.fst).Nodup) :
    getCell (l.map Prod.fst) ⟨lab, alignCells (l.map Prod.fst) l⟩ nm
      = (l.lookup nm).getD (Value.plain .bnone) := by
  unfold getCell
  rw [show (Row.mk lab (alignCells (l.map Prod.fst) l)).cells
        = alignCells (l.map Prod.fst) l from rfl]
  rw [alignCells_self l hnd, zip_fst_snd]

theorem buildRows_labels (cols : List String) (idx : List String)
    (ds : List (List (String × Value))) :
    ∀ k, (buildRows cols k ds).map (fun r => idx.map (fun nm => getCell cols r nm))
      = ds.map (fun d => idx.map (fun nm => getCell cols ⟨[], alignCells cols d⟩ nm)) := by
  induction ds with
  | nil => intro k; rfl
  | cons d rest ih =>
      intro k
      simp only [buildRows, List.map_cons, ih (k + 1)]
      rfl

theorem init_multi_eq (rc : RecordClass) (data : List Record) (idx : List String)
    (hinst : ∀ r ∈ data, isinstance r rc = true) (hne : data ≠ []) :
    DataClassFrame.init rc data (.multi idx) =
      from_dataframe rc (initDF rc data) (.multi idx) := by
  have hlen : ¬ ((data.map (fun r => r.values)).length < 1) := by
    cases data with
    | nil => exact absurd rfl hne
    | cons d rest => simp
  simp only [DataClassFrame.init, validateAll_ok rc data hinst 0]
  rw [if_neg hlen]
  simp only [dataclass_to_empty_dataframe_eq, DataFrame.appendDicts,
    List.nil_append, initDF]

/-- **C4.** Constructing with a non-empty list of index fields (all of them
declared fields, over genuine records with distinct field names): if two
rows share the same index-value combination the construction fails with
`DuplicateKey`; if all combinations are distinct it succeeds, the rows are
labelled by exactly those combinations, and the index fields remain
ordinary columns (the column list is still the full descriptor). -/
theorem claim_c4 (rc : RecordClass) (data : List Record) (idx : List String)
    (hw : ∀ r ∈ data, Record.wf r rc)
    (hnd : (rc.fields.map Prod.fst).Nodup)
    (hne : data ≠ []) (_hidx : idx ≠ [])
    (hsub : ∀ nm ∈ idx, nm ∈ rc.fields.map Prod.fst) :
    (¬ (data.map (fun r => idx.map
          (fun nm => (r.values.lookup nm).getD (Value.plain .bnone)))).Nodup
        → DataClassFrame.init rc data (.multi idx) = .error .duplicateKey)
    ∧ ((data.map (fun r => idx.map
          (fun nm => (r.values.lookup nm).getD (Value.plain .bnone)))).Nodup
        → ∃ dcf, DataClassFrame.init rc data (.multi idx) = .ok dcf
            ∧ dcf.df.cols = rc.fields.map Prod.fst
            ∧ dcf.df.rows.map (fun r => r.label)
                = data.map (fun r => idx.map
                    (fun nm => (r.values.lookup nm).getD (Value.plain .bnone)))) := by
  have hinst : ∀ r ∈ data, isinstance r rc = true := by
    intro r hr
    simp [isinstance, (hw r hr).1]
  have hguard : (idx.all (fun nm => (initDF rc data).cols.contains nm)) = true := by
    rw [List.all_eq_true]
    intro nm hnm
    exact List.elem_iff.mpr (hsub nm hnm)
  have hkey : (initDF rc data).rows.map
        (fun r => idx.map (fun nm => getCell (initDF rc data).cols r nm))
      = data.map (fun r => idx.map
          (fun nm => (r.values.lookup nm).getD (Value.plain .bnone))) := by
    rw [show (initDF rc data).rows
          = buildRows (rc.fields.map Prod.fst) 0 (data.map (fun r => r.values)) from rfl]
    rw [show (initDF rc data).cols = rc.fields.map Prod.fst from rfl]
    rw [buildRows_labels (rc.fields.map Prod.fst) idx (data.map (fun r => r.values)) 0]
    rw [List.map_map]
    refine List.map_congr_left ?_
    intro r hr
    obtain ⟨hcls, hkeys⟩ := hw r hr
    show idx.map (fun nm => getCell (rc.fields.map Prod.fst)
        ⟨[], alignCells (rc.fields.map Prod.fst) r.values⟩ nm) = _
    rw [← hkeys]
    refine List.map_congr_left ?_
    intro nm _
    exact getCell_align r.values [] nm (by rw [hkeys]; exact hnd)
  constructor
  · intro hdup
    rw [init_multi_eq rc data idx hinst hne, from_dataframe_multi]
    have hset : (initDF rc data).setIndexCols idx = .error .duplicateKey := by
      unfold DataFrame.setIndexCols
      rw [if_pos hguard, if_neg (by rw [hkey]; exact hdup)]
    rw [hset]
  · intro hnodup
    rw [init_multi_eq rc data idx hinst hne, from_dataframe_multi]
    have hset : (initDF rc data).setIndexCols idx =
        .ok { initDF rc data with
              rows := (initDF rc data).rows.map
                (fun r => ⟨idx.map (fun nm => getCell (initDF rc data).cols r nm),
                           r.cells⟩) } := by
      unfold DataFrame.setIndexCols
      rw [if_pos hguard, if_pos (by rw [hkey]; exact hnodup)]
    rw [hset]
    refine ⟨_, rfl, rfl, ?_⟩
    simp only []
    rw [List.map_map]
    exact hkey

/-- **C2 (amended).** A key-indexer write checks the record's own
index-field value only when the store's `index` is a bare string field
name: then it succeeds exactly when that value Python-equals the key and
otherwise raises the KeyMismatch `ValueError` (before any mutation).  When
the `index` was given as a *list* of field names — composite or even a
singleton list — the write always raises `TypeError` (the record's
`__dict__` is subscripted with an unhashable list), regardless of whether
the record matches the key. -/
theorem claim_c2_amended (dcf : DataClassFrame) (key : Value) (r : Record) :
    (∀ s v, dcf.index = .single s → r.values.lookup s = some v →
      ((pyEq key v = true → exOk (at_set dcf key r) = true)
        ∧ (pyEq key v = false →
            at_set dcf key r = .error (.keyMismatch key v))))
    ∧ (∀ l, dcf.index = .multi l → at_set dcf key r = .error .typeError) := by
  constructor
  · intro s v hidx hl
    constructor
    · intro hq
      simp [at_set, hidx, hl, hq, exOk]
    · intro hq
      simp [at_set, hidx, hl, hq]
  · intro l hidx
    simp [at_set, hidx]

/-! ### Concrete fixtures for witnesses and counterexamples -/

instance {ε α : Type} [DecidableEq ε] [DecidableEq α] : DecidableEq (Except ε α)
  | .ok a, .ok b =>
      if h : a = b then .isTrue (by rw [h]) else .isFalse (by
        intro he
        cases he
        exact h rfl)
  | .error a, .error b =>
      if h : a = b then .isTrue (by rw [h]) else .isFalse (by
        intro he
        cases he
        exact h rfl)
  | .ok a, .error b => .isFalse (by intro he; cases he)
  | .error a, .ok b => .isFalse (by intro he; cases he)

def rcW : RecordClass := ⟨"R", [("a", "int"), ("b", "str")]⟩

def rW1 : Record := ⟨"R", [("a", .plain (.bint 1)), ("b", .plain (.bstr "x"))]⟩

def rW2 : Record := ⟨"R", [("a", .plain (.bint 2)), ("b", .plain (.bstr "y"))]⟩

def rW3 : Record := ⟨"R", [("a", .plain (.bint 1)), ("b", .plain (.bstr "z"))]⟩

def rBad : Record := ⟨"S", [("a", .plain (.bint 3)), ("b", .plain (.bstr "z"))]⟩

def dcfW : DataClassFrame :=
  ⟨rcW, initDF rcW [rW1, rW2], .noIdx,
   ⟨rcW.fields.map Prod.fst, initDF rcW [rW1, rW2]⟩⟩

def dcfA : DataClassFrame :=
  match DataClassFrame.init rcW [rW1, rW2] (.single "a") with
  | .ok d => d
  | .error _ => dcfW

def storeM : Except PyError DataClassFrame :=
  DataClassFrame.init rcW [rW1, rW2] (.multi ["a", "b"])

def atSetM : Except PyError DataClassFrame :=
  match storeM with
  | .ok d => at_set d (.plain (.bint 1)) rW1
  | .error e => .error e

/-- **C2, counterexample.** A store with a composite index built from one
record whose index fields are `a = 1, b = 2`: by the claim, the write
`keyed[1] = record` (key unequal to the index values) must fail with
`KeyMismatch`; the code instead raises `TypeError`, which is neither a
success nor a KeyMismatch. -/
theorem claim_c2_counterexample :
    exOk storeM = true ∧ atSetM = .error .typeError
    ∧ isKeyMismatchE atSetM = false ∧ exOk atSetM = false := by decide

/-! ### Witnesses -/

theorem claim_c1_witness :
    (∀ r ∈ [rW1, rW2], Record.wf r rcW)
    ∧ (iat_get dcfW (0 : Int)).map (fun rb => recordPyEq rb rW1) = .ok true := by
  refine ⟨by decide, ?_⟩
  exact claim_c1 rcW [rW1, rW2] dcfW (by decide) (by decide) (by decide) 0 (by decide)

theorem claim_c2_amended_witness :
    dcfA.index = .single "a"
    ∧ rW1.values.lookup "a" = some (Value.plain (.bint 1))
    ∧ pyEq (Value.plain (.bint 1)) (Value.plain (.bint 1)) = true
    ∧ exOk (at_set dcfA (Value.plain (.bint 1)) rW1) = true := by
  refine ⟨by decide, by decide, by decide, ?_⟩
  exact ((claim_c2_amended dcfA (Value.plain (.bint 1)) rW1).1 "a"
    (Value.plain (.bint 1)) (by decide) (by decide)).1 (by decide)

theorem claim_c4_witness :
    ¬ ([rW1, rW3].map (fun r => ["a"].map
        (fun nm => (r.values.lookup nm).getD (Value.plain .bnone)))).Nodup
    ∧ DataClassFrame.init rcW [rW1, rW3] (.multi ["a"]) = .error .duplicateKey := by
  refine ⟨by decide, ?_⟩
  exact (claim_c4 rcW [rW1, rW3] ["a"] (by decide) (by decide) (by decide)
    (by decide) (by decide)).1 (by decide)

theorem claim_c5_witness :
    DataClassFrame.init rcW [rW1, rW2] .noIdx = .ok dcfW
    ∧ ([Op.opColSet "a" [Value.plain (.bint 5), Value.plain (.bint 6)],
        Op.opIatSet 0 rW2].foldl applyOp dcfW).df.cols = rcW.fields.map Prod.fst := by
  refine ⟨by decide, ?_⟩
  exact claim_c5 rcW [rW1, rW2] .noIdx dcfW (by decide)
    [Op.opColSet "a" [Value.plain (.bint 5), Value.plain (.bint 6)],
     Op.opIatSet 0 rW2]

theorem claim_c6_witness :
    1 ≤ dcfW.df.rows.length ∧ (dcfW.head 1).df.rows.length = 1 :=
  ⟨by decide, (claim_c6 dcfW 1 (by decide)).1⟩

theorem claim_c7_witness :
    isinstance rBad rcW = false
    ∧ DataClassFrame.init rcW [rW1, rBad] .noIdx =
        .error (.typeMismatch rcW.name rBad 1) := by
  refine ⟨by decide, ?_⟩
  exact claim_c7 rcW [rW1, rBad] .noIdx 1 (by decide) (by decide) (by decide)

theorem claim_c9_witness :
    (dcfW.head 1).df.rows.length = 1
    ∧ colGet (dcfW.head 1) "a" = some (dcfW.df.getCol "a")
    ∧ (dcfW.df.getCol "a").length = 2 := by
  have h := claim_c9 rcW [rW1, rW2] 1 "a" dcfW (by decide) (by decide)
    (by decide) (by decide) (by decide)
  exact ⟨h.1, h.2.1, h.2.2⟩

theorem claim_c10_witness :
    pyIdx dcfW.df.rows.length 0 ≠ none
    ∧ exOk (iat_set dcfW 0 rW2) = true
    ∧ iat_set dcfW 0 ⟨"Z", rW2.values⟩ = iat_set dcfW 0 rW2 := by
  have h := claim_c10 dcfW 0 rW2 (by decide)
  exact ⟨by decide, h.1, h.2.1 "Z"⟩

end DCF
